import Mathlib

/-!
Shallow embedding of the quiz-session core of the aptitude-test Flask app
(`app.py`, routes `index`, `quiz`, `check_answer`, `results`, and the
question-generation helpers `generate_questions` / `get_default_questions`).

Modelling conventions:
* The Flask `session` dict is the record `SessionState`.  The key
  `'questions'` may be absent (`Option`); all guards in the code test only
  `'questions' in session`, so the other keys are modelled by plain fields
  whose value after a `session.pop` is the default the code would read back
  (`session.get('user_answers', {})` -> empty map, `session.get('start_time', 0)`
  -> 0, `session.get('timed_test')` -> falsy).
* `session['user_answers']` is a Python dict keyed by `str(question_index)`;
  since the index is a validated integer, `str` is injective on the keys used
  and the dict is modelled as a partial map `Nat → Option AnswerRecord`.
* `time.time()` values are passed in explicitly as a rational `now`; Python
  float arithmetic is modelled over `ℚ` (the display-only `round(…, 2)` of the
  accuracy and the `round` of the elapsed time are omitted as presentation
  steps).
* The `defaultdict(lambda: {'correct':0,'incorrect':0,'total':0})` used for
  the topic breakdown is modelled as a total function `String → Bucket` whose
  unseen keys read as the zero bucket (exactly the defaultdict's default).
* The Groq chat-completion call together with `json.loads(...).get('questions', [])`
  is the only external input of `generate_questions`; it is passed in as a
  parameter `upstream : Option (List Question)` (`none` = the `try` block
  raised, `some qs` = it parsed to the list `qs`).
* HTTP-level outcomes: `jsonify({'error': ...}), 400` becomes
  `Except.error`, a redirect to `index` becomes `none`.
-/

namespace Quiz

/-- A question record as produced by the generator / default pool
(`subject` is attached later by `index`, hence optional; `chapter` may be
missing until `setdefault('chapter', 'General')` runs). -/
structure Question where
  subject : Option String
  chapter : Option String
  question : String
  options : List (String × String)
  correct_answer : String
  solution : Option String
deriving DecidableEq, Repr

/-- One entry of `session['user_answers']`:
`{'user_answer': selected_option, 'is_correct': is_correct}`. -/
structure AnswerRecord where
  user_answer : Option String
  is_correct : Bool
deriving DecidableEq, Repr

/-- `session['user_answers']` as a partial map from question index. -/
abbrev Ledger := Nat → Option AnswerRecord

/-- The empty answer dict `{}`. -/
def emptyLedger : Ledger := fun _ => none

/-- Dict assignment `user_answers[str(i)] = r`. -/
def updateLedger (m : Ledger) (i : Nat) (r : AnswerRecord) : Ledger :=
  fun j => if j = i then some r else m j

/-- The Flask session, restricted to the quiz keys. -/
structure SessionState where
  questions : Option (List Question)
  score : Nat
  start_time : ℚ
  timed_test : Bool
  user_answers : Ledger

/-- The two client-error conditions of `check_answer`
(`'Session expired'` and `'Invalid question index'`, both HTTP 400). -/
inductive ErrMsg where
  | sessionExpired
  | invalidIndex
deriving DecidableEq, Repr

/-- The JSON body returned by a successful `check_answer`. -/
structure CheckAnswerResponse where
  is_correct : Bool
  correct_answer : String
  solution : String
deriving DecidableEq, Repr

/-- Session initialisation performed by the `POST /` branch of `index`
(lines 76–80: `session['questions'] = questions; session['score'] = 0;
session['start_time'] = time.time(); session['timed_test'] = timed_test;
session['user_answers'] = {}`). -/
def start_session (questions : List Question) (timed_test : Bool) (now : ℚ) :
    SessionState :=
  { questions := some questions
    score := 0
    start_time := now
    timed_test := timed_test
    user_answers := emptyLedger }

/-- Per-subject request size in `index` (lines 62–66):
`q_count = num_questions // k + (1 if i < num_questions % k else 0)`. -/
def qCount (num_questions k i : Nat) : Nat :=
  num_questions / k + (if i < num_questions % k then 1 else 0)

/-- The list of per-subject counts requested over the selected subjects,
in selection order. -/
def requestedCounts (num_questions : Nat) (selected_subjects : List String) :
    List Nat :=
  (List.range selected_subjects.length).map
    (qCount num_questions selected_subjects.length)

/-- `POST /check_answer` (lines 113–141).  Returns the (possibly unchanged)
session together with either an error body or the success body; no state is
mutated on the error paths. -/
def check_answer (st : SessionState) (question_index : Option Int)
    (selected_option : Option String) :
    SessionState × Except ErrMsg CheckAnswerResponse :=
  match st.questions with
  | none => (st, .error .sessionExpired)
  | some all_questions =>
    match question_index with
    | none => (st, .error .invalidIndex)
    | some qi =>
      if 0 ≤ qi ∧ qi < (all_questions.length : Int) then
        match all_questions[qi.toNat]? with
        | none => (st, .error .invalidIndex)
        | some question =>
          let is_correct : Bool := selected_option == some question.correct_answer
          ({ st with
              user_answers := updateLedger st.user_answers qi.toNat
                ⟨selected_option, is_correct⟩ },
           .ok ⟨is_correct, question.correct_answer,
                question.solution.getD "Solution not available."⟩)
      else (st, .error .invalidIndex)

/-- `GET /quiz` (lines 92–110), reduced to its session-visible behaviour:
it reads the session (returned unchanged) and computes `time_left`
(`max(0, len(questions)*60 - (now - start_time))` when `timed_test`).
Outer `none` = redirect to `index`; inner `none` = untimed session. -/
def quiz (st : SessionState) (now : ℚ) : SessionState × Option (Option ℚ) :=
  match st.questions with
  | none => (st, none)
  | some all_questions =>
    let time_left : Option ℚ :=
      if st.timed_test then
        some (max 0 ((all_questions.length : ℚ) * 60 - (now - st.start_time)))
      else none
    (st, some time_left)

/-- `SUBJECT_MAP = {"Logical Reasoning": "LR", "Quantitative Aptitude": "QA",
"Verbal Ability": "VA"}`, as a partial map. -/
def SUBJECT_MAP : String → Option String := fun s =>
  if s = "Logical Reasoning" then some "LR"
  else if s = "Quantitative Aptitude" then some "QA"
  else if s = "Verbal Ability" then some "VA"
  else none

/-- The topic key of a question in `results`:
`f"{SUBJECT_MAP.get(q.get('subject'), 'Unknown')} -> {q.get('chapter', 'General')}"`. -/
def topicKey (q : Question) : String :=
  (q.subject.bind SUBJECT_MAP).getD "Unknown" ++ " -> " ++ q.chapter.getD "General"

/-- One `{'correct': _, 'incorrect': _, 'total': _}` value of the
`topic_breakdown` defaultdict. -/
structure Bucket where
  correct : Nat
  incorrect : Nat
  total : Nat
deriving DecidableEq, Repr

/-- The defaultdict, as a total function with zero default. -/
abbrev Breakdown := String → Bucket

def emptyBreakdown : Breakdown := fun _ => ⟨0, 0, 0⟩

/-- Accumulator of the scoring loop in `results`. -/
structure Tally where
  correct_count : Nat
  incorrect_count : Nat
  breakdown : Breakdown

/-- Body of `for i, q in enumerate(all_questions)` in `results`
(lines 160–172): bump the bucket's `total`, then, if the ledger has an
entry for `i`, bump the matching counter and bucket field. -/
def tallyStep (user_answers : Ledger) (acc : Tally) (iq : Nat × Question) :
    Tally :=
  let topic := topicKey iq.2
  let b1 : Breakdown := fun k =>
    if k = topic then { acc.breakdown topic with total := (acc.breakdown topic).total + 1 }
    else acc.breakdown k
  match user_answers iq.1 with
  | none => { acc with breakdown := b1 }
  | some answer_info =>
    if answer_info.is_correct then
      { correct_count := acc.correct_count + 1
        incorrect_count := acc.incorrect_count
        breakdown := fun k =>
          if k = topic then { b1 topic with correct := (b1 topic).correct + 1 }
          else b1 k }
    else
      { correct_count := acc.correct_count
        incorrect_count := acc.incorrect_count + 1
        breakdown := fun k =>
          if k = topic then { b1 topic with incorrect := (b1 topic).incorrect + 1 }
          else b1 k }

/-- The whole scoring loop of `results`. -/
def runTally (all_questions : List Question) (user_answers : Ledger) : Tally :=
  all_questions.enum.foldl (tallyStep user_answers) ⟨0, 0, emptyBreakdown⟩

/-- The `report_data` dict assembled by `results` (student name, Firestore
persistence and display rounding omitted as glue). -/
structure ReportData where
  score : Nat
  total_questions : Nat
  accuracy : ℚ
  correct_count : Nat
  incorrect_count : Nat
  unanswered_count : Nat
  total_time_taken : ℚ
  topic_breakdown : Breakdown

/-- `GET /results` (lines 146–221): aggregates the report from the session,
then pops `questions`, `user_answers`, `start_time` and `timed_test`
(`score` is not popped).  `none` = redirect to `index` when no session. -/
def results (st : SessionState) (now : ℚ) :
    Option (SessionState × ReportData) :=
  match st.questions with
  | none => none
  | some all_questions =>
    let t := runTally all_questions st.user_answers
    let score := t.correct_count
    let total := all_questions.length
    let accuracy : ℚ := if 0 < total then (score : ℚ) / (total : ℚ) * 100 else 0
    let report : ReportData :=
      { score := score
        total_questions := total
        accuracy := accuracy
        correct_count := t.correct_count
        incorrect_count := t.incorrect_count
        unanswered_count := total - (t.correct_count + t.incorrect_count)
        total_time_taken := now - st.start_time
        topic_breakdown := t.breakdown }
    let cleared : SessionState :=
      { questions := none
        score := st.score
        start_time := 0
        timed_test := false
        user_answers := emptyLedger }
    some (cleared, report)

/-- The fixed fallback question of the `"Logical Reasoning"` pool in
`get_default_questions` (line 295). -/
def lrDefault : Question :=
  { subject := none
    chapter := some "Syllogisms"
    question := "If all Bloops are Razzies and all Razzies are Lazzies, then all Bloops are definitely Lazzies?"
    options := [("A", "True"), ("B", "False"), ("C", "Uncertain"), ("D", "None of the above")]
    correct_answer := "A"
    solution := some "This is a case of transitive relation. If A implies B and B implies C, then A implies C. So, the statement is True." }

/-- The fixed fallback question of the `"Quantitative Aptitude"` pool
(line 296). -/
def qaDefault : Question :=
  { subject := none
    chapter := some "Speed, Time & Distance"
    question := "If a train travels 300 km in 5 hours, what is its average speed?"
    options := [("A", "50 km/h"), ("B", "60 km/h"), ("C", "70 km/h"), ("D", "80 km/h")]
    correct_answer := "B"
    solution := some "Average Speed = Total Distance / Total Time. Speed = 300 km / 5 hours = 60 km/h." }

/-- The fixed fallback question of the `"Verbal Ability"` pool (line 297). -/
def vaDefault : Question :=
  { subject := none
    chapter := some "Synonyms"
    question := "Choose the correct synonym for \x27Benevolent\x27"
    options := [("A", "Cruel"), ("B", "Kind"), ("C", "Selfish"), ("D", "Greedy")]
    correct_answer := "B"
    solution := some "\x27Benevolent\x27 means well-meaning and kindly. \x27Kind\x27 is the closest synonym." }

/-- The `defaults` dict of `get_default_questions` (lines 294–298):
one built-in question per known subject, empty for unknown subjects. -/
def defaultPool : String → List Question := fun subject =>
  if subject = "Logical Reasoning" then [lrDefault]
  else if subject = "Quantitative Aptitude" then [qaDefault]
  else if subject = "Verbal Ability" then [vaDefault]
  else []

/-- `get_default_questions(subject, num_questions)` (lines 293–300):
`defaults.get(subject, [])[:num_questions]`. -/
def get_default_questions (subject : String) (num_questions : Nat) :
    List Question :=
  (defaultPool subject).take num_questions

/-- `generate_questions(subject, difficulty, num_questions)` (lines 245–291).
The upstream chat-completion + JSON parse is the parameter `upstream`
(`none` = any exception inside the `try`, `some qs` = the parsed
`'questions'` list).  On exception the default pool is returned; on
under-delivery the result is padded with defaults; the result is truncated
to `num_questions`.  The `difficulty` argument only feeds the prompt text
and is irrelevant to the returned value. -/
def generate_questions (subject : String) (upstream : Option (List Question))
    (num_questions : Nat) : List Question :=
  match upstream with
  | none => get_default_questions subject num_questions
  | some questions =>
    let questions :=
      if questions.length < num_questions then
        questions ++ get_default_questions subject (num_questions - questions.length)
      else questions
    questions.take num_questions

/-! ### Concrete data used to exercise the operations -/

/-- A small concrete question for tests/witnesses. -/
def exQ : Question :=
  { subject := some "Logical Reasoning"
    chapter := some "Syllogisms"
    question := "sample"
    options := [("A", "x"), ("B", "y"), ("C", "z"), ("D", "w")]
    correct_answer := "A"
    solution := some "sample solution" }

/-! ### Behaviour of `check_answer` on a valid submission -/

/-- Unfolding lemma: on an Active session and an in-range index,
`check_answer` overwrites the ledger at that index with the submitted
label and its correctness, and returns the correctness flag, the correct
label and the solution text. -/
theorem check_answer_ok (st : SessionState) (qs : List Question) (i : Nat)
    (l : Option String) (h1 : st.questions = some qs) (h2 : i < qs.length) :
    check_answer st (some (i : Int)) l =
      ({ st with user_answers := updateLedger st.user_answers i (AnswerRecord.mk l (l == some qs[i].correct_answer)) },
       .ok (CheckAnswerResponse.mk (l == some qs[i].correct_answer) qs[i].correct_answer (qs[i].solution.getD "Solution not available."))) := by
  have hcond : (0 : Int) ≤ (i : Int) ∧ (i : Int) < (qs.length : Int) := by
    exact ⟨Int.natCast_nonneg i, by exact_mod_cast h2⟩
  simp only [check_answer, h1, if_pos hcond, Int.toNat_natCast,
    List.getElem?_eq_getElem h2]

/-- A one-question Active session used by witnesses. -/
def exSt1 : SessionState := start_session [exQ] false 0

/-- C4: on an Active session over N questions, `check_answer` fails with the
invalid-index condition exactly when `question_index` is missing or outside
`[0, N-1]`, and on that rejection the session (hence the answer ledger) is
unchanged. -/
theorem check_answer_invalid_index (st : SessionState) (qs : List Question)
    (question_index : Option Int) (selected_option : Option String)
    (h1 : st.questions = some qs) :
    ((check_answer st question_index selected_option).2 = .error .invalidIndex ↔
      question_index = none ∨
        ∃ v, question_index = some v ∧ (v < 0 ∨ (qs.length : Int) ≤ v)) ∧
    ((check_answer st question_index selected_option).2 = .error .invalidIndex →
      (check_answer st question_index selected_option).1 = st) := by
  match question_index with
  | none => simp [check_answer, h1]
  | some v =>
    by_cases hv : (0 : Int) ≤ v ∧ v < (qs.length : Int)
    · have hlt : v.toNat < qs.length := by omega
      simp [check_answer, h1, if_pos hv, List.getElem?_eq_getElem hlt]
      omega
    · simp [check_answer, h1, if_neg hv]
      omega

/-- Witness for C4 at a concrete one-question session: index `-1` and
index `N = 1` are both rejected with the invalid-index condition, and the
session is unchanged by the rejection. -/
theorem check_answer_invalid_index_witness :
    exSt1.questions = some [exQ] ∧
    (check_answer exSt1 (some (-1)) none).2 = .error .invalidIndex ∧
    (check_answer exSt1 (some 1) none).2 = .error .invalidIndex ∧
    (check_answer exSt1 (some (-1)) none).1 = exSt1 := by
  refine ⟨rfl, ?_, ?_, ?_⟩
  · exact (check_answer_invalid_index exSt1 [exQ] (some (-1)) none rfl).1.mpr
      (Or.inr ⟨-1, rfl, Or.inl (by decide)⟩)
  · exact (check_answer_invalid_index exSt1 [exQ] (some 1) none rfl).1.mpr
      (Or.inr ⟨1, rfl, Or.inr (by decide)⟩)
  · exact (check_answer_invalid_index exSt1 [exQ] (some (-1)) none rfl).2
      ((check_answer_invalid_index exSt1 [exQ] (some (-1)) none rfl).1.mpr
        (Or.inr ⟨-1, rfl, Or.inl (by decide)⟩))

/-- C9: a valid answer submission mutates only the ledger entry at the
submitted index; the question set, the stored score, the clock start time
and the timed flag are unchanged, and every other ledger entry is
unchanged. -/
theorem check_answer_frame (st : SessionState) (qs : List Question) (i : Nat)
    (l : Option String) (h1 : st.questions = some qs) (h2 : i < qs.length) :
    (check_answer st (some (i : Int)) l).1.questions = st.questions ∧
    (check_answer st (some (i : Int)) l).1.score = st.score ∧
    (check_answer st (some (i : Int)) l).1.start_time = st.start_time ∧
    (check_answer st (some (i : Int)) l).1.timed_test = st.timed_test ∧
    (∀ j, j ≠ i →
      (check_answer st (some (i : Int)) l).1.user_answers j = st.user_answers j) ∧
    (check_answer st (some (i : Int)) l).1.user_answers i =
      some (AnswerRecord.mk l (l == some qs[i].correct_answer)) := by
  rw [check_answer_ok st qs i l h1 h2]
  refine ⟨rfl, rfl, rfl, rfl, ?_, ?_⟩
  · intro j hj
    simp [updateLedger, hj]
  · simp [updateLedger]

/-- Witness for C9 at a concrete session and submission. -/
theorem check_answer_frame_witness :
    exSt1.questions = some [exQ] ∧ 0 < [exQ].length ∧
    (check_answer exSt1 (some ((0 : Nat) : Int)) (some "A")).1.score = exSt1.score := by
  exact ⟨rfl, by decide,
    (check_answer_frame exSt1 [exQ] 0 (some "A") rfl (by decide)).2.1⟩

/-- C10: submitting with `selected_option` absent does not fail on a valid
index: the ledger records `is_correct = false` with a null answer, and the
response carries `is_correct = false`, the correct label and the solution —
a null submission counts as an incorrect answer. -/
theorem check_answer_null_selected (st : SessionState) (qs : List Question)
    (i : Nat) (h1 : st.questions = some qs) (h2 : i < qs.length) :
    check_answer st (some (i : Int)) none =
      ({ st with user_answers := updateLedger st.user_answers i (AnswerRecord.mk none false) },
       .ok (CheckAnswerResponse.mk false qs[i].correct_answer (qs[i].solution.getD "Solution not available."))) := by
  rw [check_answer_ok st qs i none h1 h2]
  rfl

/-- Witness for C10: a null submission at index 0 of a concrete session. -/
theorem check_answer_null_selected_witness :
    exSt1.questions = some [exQ] ∧
    (check_answer exSt1 (some ((0 : Nat) : Int)) none).2 =
      .ok (CheckAnswerResponse.mk false "A" "sample solution") := by
  refine ⟨rfl, ?_⟩
  rw [check_answer_null_selected exSt1 [exQ] 0 rfl (by decide)]
  rfl

/-- Writing the same ledger key twice keeps only the second record. -/
theorem updateLedger_updateLedger_same (m : Ledger) (i : Nat)
    (r1 r2 : AnswerRecord) :
    updateLedger (updateLedger m i r1) i r2 = updateLedger m i r2 := by
  funext j
  by_cases hj : j = i <;> simp [updateLedger, hj]

/-- C1: resubmitting an answer for an already-answered index overwrites the
prior record — the resulting session equals the one obtained by submitting
only the latest answer, the ledger holds the latest record at that index,
and the results aggregation afterwards is therefore identical to the
single-submission one (no double counting). -/
theorem check_answer_overwrite (st : SessionState) (qs : List Question)
    (i : Nat) (l1 l2 : Option String) (now : ℚ)
    (h1 : st.questions = some qs) (h2 : i < qs.length) :
    (check_answer (check_answer st (some (i : Int)) l1).1 (some (i : Int)) l2).1 =
      (check_answer st (some (i : Int)) l2).1 ∧
    (check_answer (check_answer st (some (i : Int)) l1).1 (some (i : Int)) l2).1.user_answers i =
      some (AnswerRecord.mk l2 (l2 == some qs[i].correct_answer)) ∧
    results (check_answer (check_answer st (some (i : Int)) l1).1 (some (i : Int)) l2).1 now =
      results (check_answer st (some (i : Int)) l2).1 now := by
  have e1 := check_answer_ok st qs i l1 h1 h2
  have hq1 : (check_answer st (some (i : Int)) l1).1.questions = some qs := by
    rw [e1]; exact h1
  have e2 := check_answer_ok (check_answer st (some (i : Int)) l1).1 qs i l2 hq1 h2
  have e3 := check_answer_ok st qs i l2 h1 h2
  have hstate :
      (check_answer (check_answer st (some (i : Int)) l1).1 (some (i : Int)) l2).1 =
        (check_answer st (some (i : Int)) l2).1 := by
    rw [e2, e3, e1]
    show SessionState.mk st.questions st.score st.start_time st.timed_test (updateLedger (updateLedger st.user_answers i (AnswerRecord.mk l1 (l1 == some qs[i].correct_answer))) i (AnswerRecord.mk l2 (l2 == some qs[i].correct_answer))) = SessionState.mk st.questions st.score st.start_time st.timed_test (updateLedger st.user_answers i (AnswerRecord.mk l2 (l2 == some qs[i].correct_answer)))
    rw [updateLedger_updateLedger_same]
  refine ⟨hstate, ?_, ?_⟩
  · rw [hstate, e3]
    simp [updateLedger]
  · rw [hstate]

/-- Witness for C1: overwrite an incorrect first submission with a correct
one at index 0 of a concrete session. -/
theorem check_answer_overwrite_witness :
    exSt1.questions = some [exQ] ∧ 0 < [exQ].length ∧
    (check_answer (check_answer exSt1 (some ((0 : Nat) : Int)) (some "B")).1
        (some ((0 : Nat) : Int)) (some "A")).1 =
      (check_answer exSt1 (some ((0 : Nat) : Int)) (some "A")).1 :=
  ⟨rfl, by decide,
    (check_answer_overwrite exSt1 [exQ] 0 (some "B") (some "A") 0 rfl (by decide)).1⟩

/-- Unfolding lemma: `results` on an Active session returns the cleared
session together with the aggregated report. -/
theorem results_ok (st : SessionState) (qs : List Question) (now : ℚ)
    (h1 : st.questions = some qs) :
    results st now = some
      (SessionState.mk none st.score 0 false emptyLedger,
       ReportData.mk (runTally qs st.user_answers).correct_count qs.length
         (if 0 < qs.length then
            ((runTally qs st.user_answers).correct_count : ℚ) / (qs.length : ℚ) * 100
          else 0)
         (runTally qs st.user_answers).correct_count
         (runTally qs st.user_answers).incorrect_count
         (qs.length -
           ((runTally qs st.user_answers).correct_count +
             (runTally qs st.user_answers).incorrect_count))
         (now - st.start_time)
         (runTally qs st.user_answers).breakdown) := by
  simp only [results, h1]

/-- The concrete output of `results` on `exSt1` (the `none` branch is dead:
`exSt1` is Active). -/
def exOut1 : SessionState × ReportData :=
  match results exSt1 0 with
  | some p => p
  | none => (exSt1, ReportData.mk 0 0 0 0 0 0 0 emptyBreakdown)

/-- C3: finishing via `results` clears the whole session (question set,
answer ledger, clock) so that any subsequent answer submission fails with
the session-expired condition; no operation leads from the Finished state
back to Active — `check_answer` and `results` leave a cleared session
cleared, and only a fresh `start_session` produces an Active session
(with a fresh empty ledger and zero score). -/
theorem results_finishes_session (st : SessionState) (now : ℚ)
    (qs : List Question) (st' : SessionState) (report : ReportData)
    (h1 : st.questions = some qs) (h2 : results st now = some (st', report)) :
    st'.questions = none ∧ st'.user_answers = emptyLedger ∧
    st'.start_time = 0 ∧ st'.timed_test = false ∧
    (∀ qi so, check_answer st' qi so = (st', .error .sessionExpired)) ∧
    (∀ stf : SessionState, stf.questions = none →
      (∀ qi so, check_answer stf qi so = (stf, .error .sessionExpired)) ∧
      results stf now = none) ∧
    (∀ qs2 tt n2, (start_session qs2 tt n2).questions = some qs2 ∧
      (start_session qs2 tt n2).user_answers = emptyLedger ∧
      (start_session qs2 tt n2).score = 0) := by
  rw [results_ok st qs now h1] at h2
  simp only [Option.some.injEq, Prod.mk.injEq] at h2
  obtain ⟨hst, -⟩ := h2
  subst hst
  refine ⟨rfl, rfl, rfl, rfl, fun qi so => rfl, ?_, fun qs2 tt n2 => ⟨rfl, rfl, rfl⟩⟩
  intro stf hq
  exact ⟨fun qi so => by simp [check_answer, hq], by simp [results, hq]⟩

/-- Witness for C3 at a concrete session. -/
theorem results_finishes_session_witness :
    exSt1.questions = some [exQ] ∧
    results exSt1 0 = some (exOut1.1, exOut1.2) ∧
    (check_answer exOut1.1 (some 0) (some "A")).2 = .error .sessionExpired := by
  refine ⟨rfl, rfl, ?_⟩
  rw [(results_finishes_session exSt1 0 [exQ] exOut1.1 exOut1.2 rfl rfl).2.2.2.2.1
    (some 0) (some "A")]

/-- C6: the accuracy computed by `results` equals
`100 * correct_count / total` when the question set is non-empty and `0`
when it is empty — the division is guarded by the `total > 0` test. -/
theorem results_accuracy (st : SessionState) (now : ℚ) (qs : List Question)
    (st' : SessionState) (report : ReportData)
    (h1 : st.questions = some qs) (h2 : results st now = some (st', report)) :
    (0 < qs.length →
      report.accuracy = 100 * (report.correct_count : ℚ) / (qs.length : ℚ)) ∧
    (qs.length = 0 → report.accuracy = 0) := by
  rw [results_ok st qs now h1] at h2
  simp only [Option.some.injEq, Prod.mk.injEq] at h2
  obtain ⟨-, hrep⟩ := h2
  subst hrep
  constructor
  · intro hpos
    show (if 0 < qs.length then
        ((runTally qs st.user_answers).correct_count : ℚ) / (qs.length : ℚ) * 100
      else 0) = _
    rw [if_pos hpos]
    show _ = 100 * ((runTally qs st.user_answers).correct_count : ℚ) / (qs.length : ℚ)
    ring
  · intro h0
    show (if 0 < qs.length then
        ((runTally qs st.user_answers).correct_count : ℚ) / (qs.length : ℚ) * 100
      else 0) = 0
    rw [if_neg (by omega)]

/-- The concrete output of `results` on an empty-question-set session. -/
def exOut0 : SessionState × ReportData :=
  match results (start_session [] false 0) 0 with
  | some p => p
  | none => (start_session [] false 0, ReportData.mk 0 0 0 0 0 0 0 emptyBreakdown)

/-- Witness for C6: the guarded branch at `total = 0` (accuracy 0) and the
division branch on a one-question session. -/
theorem results_accuracy_witness :
    results (start_session [] false 0) 0 = some (exOut0.1, exOut0.2) ∧
    exOut0.2.accuracy = 0 ∧
    results exSt1 0 = some (exOut1.1, exOut1.2) ∧ 0 < [exQ].length ∧
    exOut1.2.accuracy = 100 * (exOut1.2.correct_count : ℚ) / (([exQ].length : Nat) : ℚ) := by
  refine ⟨rfl, ?_, rfl, by decide, ?_⟩
  · exact (results_accuracy (start_session [] false 0) 0 [] exOut0.1 exOut0.2 rfl rfl).2 rfl
  · exact (results_accuracy exSt1 0 [exQ] exOut1.1 exOut1.2 rfl rfl).1 (by decide)

/-- C8: for a timed session over `N` questions the `quiz` view reports
`remaining = max 0 (N * 60 - (now - start_time))` and returns the session
unchanged — the core performs no transition when the remaining time hits
zero. -/
theorem quiz_time_left_timed (st : SessionState) (now : ℚ) (qs : List Question)
    (h1 : st.questions = some qs) (h2 : st.timed_test = true) :
    quiz st now =
      (st, some (some (max 0 ((qs.length : ℚ) * 60 - (now - st.start_time))))) := by
  simp only [quiz, h1, h2, if_pos]

/-- A timed five-question session started at time 0, for the C8 witness. -/
def exSt5 : SessionState := start_session (List.replicate 5 exQ) true 0

/-- Witness for C8: with 5 questions and 60 seconds each, elapsed 250 gives
remaining 50, elapsed 301 gives remaining 0, and the session is returned
unchanged both times. -/
theorem quiz_time_left_timed_witness :
    exSt5.questions = some (List.replicate 5 exQ) ∧ exSt5.timed_test = true ∧
    quiz exSt5 250 = (exSt5, some (some 50)) ∧
    quiz exSt5 301 = (exSt5, some (some 0)) := by
  refine ⟨rfl, rfl, ?_, ?_⟩
  · rw [quiz_time_left_timed exSt5 250 (List.replicate 5 exQ) rfl rfl]
    norm_num [exSt5, start_session, max_def]
  · rw [quiz_time_left_timed exSt5 301 (List.replicate 5 exQ) rfl rfl]
    norm_num [exSt5, start_session, max_def]

/-- Sum of `a + (1 if i < r else 0)` over `i ∈ range k`. -/
theorem sum_map_range_add_indicator (k a r : Nat) :
    ((List.range k).map (fun i => a + if i < r then 1 else 0)).sum =
      k * a + min r k := by
  induction k with
  | zero => simp
  | succ k ih =>
    rw [List.range_succ, List.map_append, List.sum_append, ih, Nat.succ_mul]
    simp only [List.map_cons, List.map_nil, List.sum_cons, List.sum_nil]
    generalize k * a = m
    by_cases h : k < r <;> simp [h] <;> omega

/-- Counting `i < r` over `range k`. -/
theorem countP_range_lt (k r : Nat) :
    (List.range k).countP (fun i => decide (i < r)) = min r k := by
  induction k with
  | zero => simp
  | succ k ih =>
    rw [List.range_succ, List.countP_append, ih]
    by_cases h : k < r <;> simp [List.countP_cons, h] <;> omega

/-- C2: with `1 ≤ k ≤ N` selected subjects, the per-subject counts requested
by `index` are `N / k`, except that the first `N mod k` subjects in
selection order get `N / k + 1`; the counts sum to `N` and exactly (hence
at most) `N mod k` subjects receive the extra question. -/
theorem index_distribution (num_questions : Nat) (selected_subjects : List String)
    (hk : 1 ≤ selected_subjects.length)
    (hkN : selected_subjects.length ≤ num_questions) :
    (requestedCounts num_questions selected_subjects).sum = num_questions ∧
    (∀ i, i < selected_subjects.length →
      qCount num_questions selected_subjects.length i =
          num_questions / selected_subjects.length ∨
      qCount num_questions selected_subjects.length i =
          num_questions / selected_subjects.length + 1) ∧
    (∀ i, i < selected_subjects.length →
      (qCount num_questions selected_subjects.length i =
          num_questions / selected_subjects.length + 1 ↔
        i < num_questions % selected_subjects.length)) ∧
    (List.range selected_subjects.length).countP
        (fun i => decide (qCount num_questions selected_subjects.length i =
          num_questions / selected_subjects.length + 1)) =
      num_questions % selected_subjects.length := by
  generalize hkeq : selected_subjects.length = k at hk hkN ⊢
  have hmod : num_questions % k < k := Nat.mod_lt _ hk
  have heta : qCount num_questions k =
      fun i => num_questions / k + if i < num_questions % k then 1 else 0 := rfl
  have hfun : (fun i => decide (qCount num_questions k i = num_questions / k + 1)) =
      fun i => decide (i < num_questions % k) := by
    funext i
    unfold qCount
    generalize num_questions / k = b
    by_cases h : i < num_questions % k <;> simp [h]
  refine ⟨?_, ?_, ?_, ?_⟩
  · unfold requestedCounts
    rw [hkeq, heta, sum_map_range_add_indicator, min_eq_left hmod.le]
    exact Nat.div_add_mod num_questions k
  · intro i hi
    unfold qCount
    by_cases h : i < num_questions % k
    · right; rw [if_pos h]
    · left; rw [if_neg h]
      exact Nat.add_zero _
  · intro i hi
    unfold qCount
    generalize num_questions / k = b
    by_cases h : i < num_questions % k <;> simp [h]
  · rw [hfun, countP_range_lt, min_eq_left hmod.le]

/-- Witness for C2: seven questions over the three standard subjects give
counts `[3, 2, 2]` summing to 7. -/
theorem index_distribution_witness :
    1 ≤ (["Logical Reasoning", "Quantitative Aptitude", "Verbal Ability"] : List String).length ∧
    (["Logical Reasoning", "Quantitative Aptitude", "Verbal Ability"] : List String).length ≤ 7 ∧
    (requestedCounts 7 ["Logical Reasoning", "Quantitative Aptitude", "Verbal Ability"]).sum = 7 :=
  ⟨by decide, by decide,
    (index_distribution 7 ["Logical Reasoning", "Quantitative Aptitude", "Verbal Ability"]
      (by decide) (by decide)).1⟩

/-- A ledger entry exists at `i` and records a correct answer. -/
def answeredCorrect (ua : Ledger) (i : Nat) : Bool :=
  match ua i with
  | some info => info.is_correct
  | none => false

/-- A ledger entry exists at `i` and records an incorrect answer. -/
def answeredIncorrect (ua : Ledger) (i : Nat) : Bool :=
  match ua i with
  | some info => !info.is_correct
  | none => false

/-- The scoring fold counts one `correct_count` per answered-correct index. -/
theorem foldl_tally_correct_count (ua : Ledger) (l : List (Nat × Question))
    (acc : Tally) :
    (l.foldl (tallyStep ua) acc).correct_count =
      acc.correct_count + l.countP (fun iq => answeredCorrect ua iq.1) := by
  induction l generalizing acc with
  | nil => simp
  | cons x l ih =>
    rw [List.foldl_cons, ih, List.countP_cons]
    cases hx : ua x.1 with
    | none => simp [tallyStep, hx, answeredCorrect]
    | some info =>
      cases hic : info.is_correct
      · simp [tallyStep, hx, hic, answeredCorrect]
      · simp [tallyStep, hx, hic, answeredCorrect]
        ring

/-- The scoring fold counts one `incorrect_count` per answered-incorrect
index. -/
theorem foldl_tally_incorrect_count (ua : Ledger) (l : List (Nat × Question))
    (acc : Tally) :
    (l.foldl (tallyStep ua) acc).incorrect_count =
      acc.incorrect_count + l.countP (fun iq => answeredIncorrect ua iq.1) := by
  induction l generalizing acc with
  | nil => simp
  | cons x l ih =>
    rw [List.foldl_cons, ih, List.countP_cons]
    cases hx : ua x.1 with
    | none => simp [tallyStep, hx, answeredIncorrect]
    | some info =>
      cases hic : info.is_correct
      · simp [tallyStep, hx, hic, answeredIncorrect]
        ring
      · simp [tallyStep, hx, hic, answeredIncorrect]

/-- The scoring fold bumps a bucket's `total` once per question whose topic
key matches, answered or not. -/
theorem foldl_tally_total (ua : Ledger) (l : List (Nat × Question))
    (acc : Tally) (t : String) :
    ((l.foldl (tallyStep ua) acc).breakdown t).total =
      (acc.breakdown t).total + l.countP (fun iq => decide (topicKey iq.2 = t)) := by
  induction l generalizing acc with
  | nil => simp
  | cons x l ih =>
    rw [List.foldl_cons, ih, List.countP_cons]
    cases hx : ua x.1 with
    | none =>
      by_cases ht : t = topicKey x.2
      · subst ht
        simp [tallyStep, hx]
        ring
      · have hts : ¬(topicKey x.2 = t) := fun hh => ht hh.symm
        simp [tallyStep, hx, ht, hts]
    | some info =>
      cases hic : info.is_correct
      · by_cases ht : t = topicKey x.2
        · subst ht
          simp [tallyStep, hx, hic]
          ring
        · have hts : ¬(topicKey x.2 = t) := fun hh => ht hh.symm
          simp [tallyStep, hx, hic, ht, hts]
      · by_cases ht : t = topicKey x.2
        · subst ht
          simp [tallyStep, hx, hic]
          ring
        · have hts : ¬(topicKey x.2 = t) := fun hh => ht hh.symm
          simp [tallyStep, hx, hic, ht, hts]

/-- The scoring fold bumps a bucket's `correct` once per matching question
whose ledger entry records a correct answer. -/
theorem foldl_tally_bucket_correct (ua : Ledger) (l : List (Nat × Question))
    (acc : Tally) (t : String) :
    ((l.foldl (tallyStep ua) acc).breakdown t).correct =
      (acc.breakdown t).correct +
        l.countP (fun iq => decide (topicKey iq.2 = t) && answeredCorrect ua iq.1) := by
  induction l generalizing acc with
  | nil => simp
  | cons x l ih =>
    rw [List.foldl_cons, ih, List.countP_cons]
    cases hx : ua x.1 with
    | none =>
      by_cases ht : t = topicKey x.2
      · subst ht
        simp [tallyStep, hx, answeredCorrect]
      · have hts : ¬(topicKey x.2 = t) := fun hh => ht hh.symm
        simp [tallyStep, hx, answeredCorrect, ht, hts]
    | some info =>
      cases hic : info.is_correct
      · by_cases ht : t = topicKey x.2
        · subst ht
          simp [tallyStep, hx, hic, answeredCorrect]
        · have hts : ¬(topicKey x.2 = t) := fun hh => ht hh.symm
          simp [tallyStep, hx, hic, answeredCorrect, ht, hts]
      · by_cases ht : t = topicKey x.2
        · subst ht
          simp [tallyStep, hx, hic, answeredCorrect]
          ring
        · have hts : ¬(topicKey x.2 = t) := fun hh => ht hh.symm
          simp [tallyStep, hx, hic, answeredCorrect, ht, hts]

/-- The scoring fold bumps a bucket's `incorrect` once per matching question
whose ledger entry records an incorrect answer. -/
theorem foldl_tally_bucket_incorrect (ua : Ledger) (l : List (Nat × Question))
    (acc : Tally) (t : String) :
    ((l.foldl (tallyStep ua) acc).breakdown t).incorrect =
      (acc.breakdown t).incorrect +
        l.countP (fun iq => decide (topicKey iq.2 = t) && answeredIncorrect ua iq.1) := by
  induction l generalizing acc with
  | nil => simp
  | cons x l ih =>
    rw [List.foldl_cons, ih, List.countP_cons]
    cases hx : ua x.1 with
    | none =>
      by_cases ht : t = topicKey x.2
      · subst ht
        simp [tallyStep, hx, answeredIncorrect]
      · have hts : ¬(topicKey x.2 = t) := fun hh => ht hh.symm
        simp [tallyStep, hx, answeredIncorrect, ht, hts]
    | some info =>
      cases hic : info.is_correct
      · by_cases ht : t = topicKey x.2
        · subst ht
          simp [tallyStep, hx, hic, answeredIncorrect]
          ring
        · have hts : ¬(topicKey x.2 = t) := fun hh => ht hh.symm
          simp [tallyStep, hx, hic, answeredIncorrect, ht, hts]
      · by_cases ht : t = topicKey x.2
        · subst ht
          simp [tallyStep, hx, hic, answeredIncorrect]
        · have hts : ¬(topicKey x.2 = t) := fun hh => ht hh.symm
          simp [tallyStep, hx, hic, answeredIncorrect, ht, hts]

/-- Counting a property of the question component over `enum` equals
counting it over the list itself. -/
theorem countP_enum_snd (qs : List Question) (p : Question → Bool) :
    qs.enum.countP (fun iq => p iq.2) = qs.countP p := by
  conv_rhs => rw [← List.enum_map_snd qs, List.countP_map]
  rfl

/-- C5: the per-topic breakdown produced by `results` gives every question
of the set one unit of `total` in its bucket (answered or not), counts
`correct`/`incorrect` only over answered questions of that bucket, and the
overall `unanswered_count` is `total - correct_count - incorrect_count`. -/
theorem results_topic_breakdown (st : SessionState) (now : ℚ)
    (qs : List Question) (st' : SessionState) (report : ReportData)
    (h1 : st.questions = some qs) (h2 : results st now = some (st', report)) :
    (∀ t, (report.topic_breakdown t).total =
        qs.countP (fun q => decide (topicKey q = t)) ∧
      (report.topic_breakdown t).correct =
        qs.enum.countP (fun iq =>
          decide (topicKey iq.2 = t) && answeredCorrect st.user_answers iq.1) ∧
      (report.topic_breakdown t).incorrect =
        qs.enum.countP (fun iq =>
          decide (topicKey iq.2 = t) && answeredIncorrect st.user_answers iq.1)) ∧
    report.correct_count =
      qs.enum.countP (fun iq => answeredCorrect st.user_answers iq.1) ∧
    report.incorrect_count =
      qs.enum.countP (fun iq => answeredIncorrect st.user_answers iq.1) ∧
    report.unanswered_count =
      report.total_questions - report.correct_count - report.incorrect_count := by
  rw [results_ok st qs now h1] at h2
  simp only [Option.some.injEq, Prod.mk.injEq] at h2
  obtain ⟨-, hrep⟩ := h2
  subst hrep
  refine ⟨?_, ?_, ?_, ?_⟩
  · intro t
    refine ⟨?_, ?_, ?_⟩
    · show ((runTally qs st.user_answers).breakdown t).total = _
      rw [runTally, foldl_tally_total]
      show 0 + qs.enum.countP (fun iq => decide (topicKey iq.2 = t)) = _
      rw [Nat.zero_add]
      exact countP_enum_snd qs (fun q => decide (topicKey q = t))
    · show ((runTally qs st.user_answers).breakdown t).correct = _
      rw [runTally, foldl_tally_bucket_correct]
      show 0 + _ = _
      rw [Nat.zero_add]
    · show ((runTally qs st.user_answers).breakdown t).incorrect = _
      rw [runTally, foldl_tally_bucket_incorrect]
      show 0 + _ = _
      rw [Nat.zero_add]
  · show (runTally qs st.user_answers).correct_count = _
    rw [runTally, foldl_tally_correct_count]
    show 0 + _ = _
    rw [Nat.zero_add]
  · show (runTally qs st.user_answers).incorrect_count = _
    rw [runTally, foldl_tally_incorrect_count]
    show 0 + _ = _
    rw [Nat.zero_add]
  · show qs.length -
        ((runTally qs st.user_answers).correct_count +
          (runTally qs st.user_answers).incorrect_count) =
      qs.length - (runTally qs st.user_answers).correct_count -
        (runTally qs st.user_answers).incorrect_count
    rw [Nat.sub_sub]

/-- The spec's worked example: two `LR -> Syllogisms` questions and one
`QA -> Ratios` question. -/
def exSpecQs : List Question :=
  [Question.mk (some "Logical Reasoning") (some "Syllogisms") "s1" [] "A" none,
   Question.mk (some "Logical Reasoning") (some "Syllogisms") "s2" [] "B" none,
   Question.mk (some "Quantitative Aptitude") (some "Ratios") "r1" [] "C" none]

/-- Ledger for the worked example: question 0 answered correctly, question 1
answered incorrectly, question 2 unanswered. -/
def exSpecLedger : Ledger := fun j =>
  if j = 0 then some (AnswerRecord.mk (some "A") true)
  else if j = 1 then some (AnswerRecord.mk (some "D") false)
  else none

/-- The worked-example session. -/
def exSpecSt : SessionState :=
  SessionState.mk (some exSpecQs) 0 0 false exSpecLedger

/-- The concrete output of `results` on the worked example. -/
def exSpecOut : SessionState × ReportData :=
  match results exSpecSt 0 with
  | some p => p
  | none => (exSpecSt, ReportData.mk 0 0 0 0 0 0 0 emptyBreakdown)

/-- Witness for C5 on the spec's worked example: buckets
`LR -> Syllogisms ↦ {correct 1, incorrect 1, total 2}`,
`QA -> Ratios ↦ {correct 0, incorrect 0, total 1}`, one unanswered. -/
theorem results_topic_breakdown_witness :
    exSpecSt.questions = some exSpecQs ∧
    results exSpecSt 0 = some (exSpecOut.1, exSpecOut.2) ∧
    (exSpecOut.2.topic_breakdown "LR -> Syllogisms").total = 2 ∧
    (exSpecOut.2.topic_breakdown "LR -> Syllogisms").correct = 1 ∧
    (exSpecOut.2.topic_breakdown "LR -> Syllogisms").incorrect = 1 ∧
    (exSpecOut.2.topic_breakdown "QA -> Ratios").total = 1 ∧
    (exSpecOut.2.topic_breakdown "QA -> Ratios").correct = 0 ∧
    (exSpecOut.2.topic_breakdown "QA -> Ratios").incorrect = 0 ∧
    exSpecOut.2.unanswered_count = 1 := by
  have h := results_topic_breakdown exSpecSt 0 exSpecQs exSpecOut.1 exSpecOut.2 rfl rfl
  refine ⟨rfl, rfl, ?_, ?_, ?_, ?_, ?_, ?_, ?_⟩
  · exact ((h.1 "LR -> Syllogisms").1).trans (by decide)
  · exact ((h.1 "LR -> Syllogisms").2.1).trans (by decide)
  · exact ((h.1 "LR -> Syllogisms").2.2).trans (by decide)
  · exact ((h.1 "QA -> Ratios").1).trans (by decide)
  · exact ((h.1 "QA -> Ratios").2.1).trans (by decide)
  · exact ((h.1 "QA -> Ratios").2.2).trans (by decide)
  · exact (h.2.2.2).trans (by decide)

/-- C7: `generate_questions` is total (the embedding returns a plain list on
every input, mirroring the catch-all `except` branch): it never returns
more than `num_questions` questions; on upstream failure it returns the
default pool truncated to the request; on under-delivery it pads with the
defaults up to the request; with enough upstream questions it truncates
them; and when failure/under-delivery leaves pool plus upstream short of
the request, the result is shorter than requested (no error). -/
theorem generate_questions_spec (subject : String)
    (upstream : Option (List Question)) (n : Nat) :
    (generate_questions subject upstream n).length ≤ n ∧
    (upstream = none →
      generate_questions subject upstream n = get_default_questions subject n) ∧
    (∀ qs, upstream = some qs → qs.length < n →
      generate_questions subject upstream n =
        (qs ++ get_default_questions subject (n - qs.length)).take n) ∧
    (∀ qs, upstream = some qs → n ≤ qs.length →
      generate_questions subject upstream n = qs.take n) ∧
    (upstream = none → (defaultPool subject).length < n →
      (generate_questions subject upstream n).length = (defaultPool subject).length) ∧
    (∀ qs, upstream = some qs → qs.length + (defaultPool subject).length < n →
      (generate_questions subject upstream n).length =
        qs.length + (defaultPool subject).length) := by
  refine ⟨?_, ?_, ?_, ?_, ?_, ?_⟩
  · cases upstream with
    | none =>
      simp only [generate_questions, get_default_questions, List.length_take]
      omega
    | some qs =>
      by_cases h : qs.length < n <;>
        simp only [generate_questions, h, if_pos, if_neg, List.length_take] <;>
        omega
  · rintro rfl
    rfl
  · rintro qs rfl h
    simp [generate_questions, h]
  · rintro qs rfl h
    simp [generate_questions, Nat.not_lt.mpr h]
  · rintro rfl h
    simp only [generate_questions, get_default_questions, List.length_take]
    omega
  · rintro qs rfl h
    have hlt : qs.length < n := by omega
    simp only [generate_questions, hlt, if_pos, List.length_take,
      List.length_append, get_default_questions]
    omega

/-- Witness for C7: upstream failure with a request of 3 yields only the
single pooled Logical Reasoning question (silent degradation), and an empty
upstream delivery of 2 Verbal Ability questions yields only the pool. -/
theorem generate_questions_spec_witness :
    (generate_questions "Logical Reasoning" none 3).length ≤ 3 ∧
    generate_questions "Logical Reasoning" none 3 = get_default_questions "Logical Reasoning" 3 ∧
    (defaultPool "Logical Reasoning").length < 3 ∧
    (generate_questions "Logical Reasoning" none 3).length = (defaultPool "Logical Reasoning").length ∧
    (generate_questions "Verbal Ability" (some []) 2).length = (defaultPool "Verbal Ability").length := by
  refine ⟨(generate_questions_spec "Logical Reasoning" none 3).1,
    (generate_questions_spec "Logical Reasoning" none 3).2.1 rfl,
    by decide,
    (generate_questions_spec "Logical Reasoning" none 3).2.2.2.2.1 rfl (by decide),
    ?_⟩
  exact ((generate_questions_spec "Verbal Ability" (some []) 2).2.2.2.2.2 [] rfl
    (by decide)).trans (by decide)

end Quiz
